import Mathlib

/-!
Verification of the Star-Daemon core against its design specification.

The definitions below are a shallow embedding of the Python sources:
`star-daemon.py` (daemon loop, change detection, dispatch),
`connectors/base.py` (the `Connector` contract), and the platform
connectors (`mastodon_connector.py`, `matrix_connector.py`,
`discord_connector.py`).  Python sets are modelled as `Finset String`,
fallible network calls as `Except` values, and object state as explicit
records.
-/

namespace StarDaemon

/-- One starred repository as fetched from the snapshot source
(fields used by `_handle_new_star` in `star-daemon.py`).
Optional fields use `""` / `0` for Python's `None`-or-empty falsy values. -/
structure Item where
  full_name : String
  html_url : String
  description : String
  language : String
  stargazers_count : Nat
  forks_count : Nat
deriving DecidableEq

/-- Key set of a fetched snapshot: `{repo.full_name for repo in ...}`.
The Python code builds a dict keyed by `full_name`, so duplicates collapse. -/
def snapshotKeys (S : List Item) : Finset String :=
  (S.map Item.full_name).toFinset

/-- Result of one detection cycle: the in-memory watermark afterwards,
the set of keys handed to `_handle_new_star`, and whether `_save_state`
was called. -/
structure CycleResult where
  watermark : Finset String
  dispatched : Finset String
  saved : Bool
deriving DecidableEq

/-- `StarDaemon.check_new_stars` (star-daemon.py lines 141-159).
The fetch `self.user.get_starred()` is the first statement inside the
`try`; an exception there is caught by the surrounding handler, so the
cycle performs no dispatch and leaves all state untouched.  On success,
`new_stars = set(current.keys()) - self.starred_repos`; the watermark
update and `_save_state()` happen only under `if new_stars:`. -/
def check_new_stars (W : Finset String) (fetch : Except String (List Item)) :
    CycleResult :=
  match fetch with
  | .error _ => ⟨W, ∅, false⟩
  | .ok S =>
    let keys := snapshotKeys S
    let newStars := keys \ W
    if newStars = ∅ then ⟨W, ∅, false⟩
    else ⟨keys, newStars, true⟩

/-- `StarDaemon.run` (star-daemon.py lines 236-252), with the fetch
outcome of each tick supplied as a list: every tick runs
`check_new_stars` on the current watermark; exceptions never escape a
tick (they are caught inside `check_new_stars` or by the loop's own
handler, which sleeps and continues), so the fold always proceeds to
the next tick. -/
def runLoop : List (Except String (List Item)) → Finset String → Finset String
  | [], W => W
  | f :: rest, W => runLoop rest (check_new_stars W f).watermark

/-- Result of `StarDaemon.initialize` as far as watermark state is
concerned: resulting watermark, whether `_save_state` ran, and the
items dispatched during startup. -/
structure StartupResult where
  watermark : Finset String
  saved : Bool
  dispatched : Finset String
deriving DecidableEq

/-- `StarDaemon.initialize` (star-daemon.py lines 69-85): after
`_load_state` yields `loaded` and the current snapshot is fetched,
`if not self.starred_repos:` seeds the watermark with the current key
set and persists it.  No branch of `initialize` calls
`_handle_new_star`, so nothing is dispatched during startup. -/
def daemonStartup (loaded : Finset String) (current : List Item) :
    StartupResult :=
  if loaded = ∅ then ⟨snapshotKeys current, true, ∅⟩
  else ⟨loaded, false, ∅⟩

/-- Metadata dictionary passed alongside a message (the envelope built
in `_handle_new_star`); `safe_post` only forwards it. -/
abbrev Metadata := List (String × String)

/-- A platform connector (`connectors/base.py` plus the behaviour of its
platform-specific subclass).  `enabled` and `initialized` are the
`self.enabled` / `self._initialized` attributes; `initWorks` is the
outcome of the platform-specific work inside `initialize()` (which sets
`_initialized` and returns `True` exactly when it succeeds);
`testResult` is the outcome of the network check inside
`test_connection()`; `postResult` is the behaviour of `post_message`:
either a returned boolean or a raised exception. -/
structure Connector where
  name : String
  enabled : Bool
  initialized : Bool
  initWorks : Bool
  testResult : Bool
  postResult : String → Metadata → Except String Bool

/-- `Connector.is_ready` (base.py lines 44-46):
`return self.enabled and self._initialized`. -/
def is_ready (c : Connector) : Bool :=
  c.enabled && c.initialized

/-- `Connector.safe_post` (base.py lines 48-67): returns `False` without
touching `post_message` when the connector is not ready; otherwise calls
`post_message` and converts any raised exception into `False`. -/
def safe_post (c : Connector) (m : String) (md : Metadata) : Bool :=
  if is_ready c = false then false
  else
    match c.postResult m md with
    | .ok b => b
    | .error _ => false

/-- The per-item fan-out of `StarDaemon._handle_new_star`
(star-daemon.py lines 197-206): iterate `self.connectors`, calling
`safe_post` on each and recording the per-connector outcome. -/
def dispatchItem (cs : List Connector) (m : String) (md : Metadata) :
    List (String × Bool) :=
  cs.map (fun c => (c.name, safe_post c m md))

/-- Running `initialize()` on a connector (each platform `initialize`
sets `self._initialized = True` exactly on its success path and returns
the success flag). -/
def runInit (c : Connector) : Connector × Bool :=
  if c.initWorks then ({ c with initialized := true }, true)
  else (c, false)

/-- A platform `test_connection()` first checks `self._initialized`
(every connector returns `False` when uninitialized) and then performs
its network check. -/
def runTest (c : Connector) : Bool :=
  c.initialized && c.testResult

/-- `StarDaemon._initialize_connectors` (star-daemon.py lines 95-139):
for each enabled platform a connector is constructed and appended to
`self.connectors` only if `connector.initialize() and
connector.test_connection()` (short-circuit: the test runs only after a
successful initialize). -/
def initConnectors (cands : List Connector) : List Connector :=
  cands.foldr
    (fun c acc =>
      if c.enabled then
        let r := runInit c
        if r.2 && runTest r.1 then r.1 :: acc else acc
      else acc) []

/-- The whole-process dispatch activity: every new item across the
process lifetime is fanned out (by `_handle_new_star`) over exactly the
connectors collected at startup by `_initialize_connectors`; the list
collects every (connector, invocation result) pair. -/
def processDispatches (cands : List Connector)
    (items : List (String × Metadata)) : List (Connector × Bool) :=
  items.foldr
    (fun it acc =>
      (initConnectors cands).map (fun c => (c, safe_post c it.1 it.2)) ++ acc)
    []

end StarDaemon

namespace StarDaemon

/-- Concrete watermark for the C1 counterexample: two tracked keys. -/
def c1W : Finset String := {"a/repo1", "b/repo2"}

/-- Concrete snapshot for the C1 counterexample: only `a/repo1` is still
starred, and nothing new appears. -/
def c1S : List Item :=
  [⟨"a/repo1", "https://github.com/a/repo1", "", "", 0, 0⟩]

end StarDaemon

open StarDaemon

/-- C1 counterexample: with watermark `{a/repo1, b/repo2}` and a snapshot
containing only `a/repo1`, the cycle completes successfully (no new
items), yet the stored watermark still contains `b/repo2`, so it does
not equal `keys(S)`: keys absent from the snapshot are retained when no
new item is detected. -/
theorem check_new_stars_keeps_absent_keys :
    (check_new_stars c1W (.ok c1S)).watermark ≠ snapshotKeys c1S := by
  decide

/-- C1 (amended): the detector always yields exactly `keys(S) − W`; when
that set is non-empty the cycle replaces the watermark by `keys(S)`
exactly and persists it, but when it is empty the cycle leaves the
watermark at `W` and persists nothing. -/
theorem check_new_stars_detect_and_update
    (W : Finset String) (S : List Item) :
    (check_new_stars W (.ok S)).dispatched = snapshotKeys S \ W ∧
    (snapshotKeys S \ W ≠ ∅ →
      (check_new_stars W (.ok S)).watermark = snapshotKeys S ∧
      (check_new_stars W (.ok S)).saved = true) ∧
    (snapshotKeys S \ W = ∅ →
      check_new_stars W (.ok S) = ⟨W, ∅, false⟩) := by
  by_cases h : snapshotKeys S \ W = ∅ <;>
    simp [check_new_stars, h]

/-- C1 witness: the amended theorem applied to the spec's own scenario
(watermark `{a/repo1}`, snapshot keys `{a/repo1, b/repo2}`). -/
theorem check_new_stars_detect_and_update_witness :
    (check_new_stars {"a/repo1"}
        (.ok [⟨"a/repo1", "u1", "", "", 0, 0⟩,
              ⟨"b/repo2", "u2", "", "", 0, 0⟩])).dispatched =
      snapshotKeys [⟨"a/repo1", "u1", "", "", 0, 0⟩,
              ⟨"b/repo2", "u2", "", "", 0, 0⟩] \ {"a/repo1"} ∧
    (check_new_stars {"a/repo1"}
        (.ok [⟨"a/repo1", "u1", "", "", 0, 0⟩,
              ⟨"b/repo2", "u2", "", "", 0, 0⟩])).watermark =
      snapshotKeys [⟨"a/repo1", "u1", "", "", 0, 0⟩,
              ⟨"b/repo2", "u2", "", "", 0, 0⟩] :=
  ⟨(check_new_stars_detect_and_update {"a/repo1"} _).1,
   ((check_new_stars_detect_and_update {"a/repo1"} _).2.1 (by decide)).1⟩

/-- C4: an empty snapshot yields zero new items and leaves the watermark
exactly as it was; in particular a non-empty watermark is never cleared
by an empty fetch, and no state write occurs. -/
theorem empty_snapshot_preserves_watermark (W : Finset String) :
    check_new_stars W (.ok []) = ⟨W, ∅, false⟩ := by
  simp [check_new_stars, snapshotKeys]

/-- C5: on a baseline run (empty loaded watermark) the daemon seeds the
watermark with the full current key set, persists it, and dispatches
nothing. -/
theorem baseline_seeds_watermark (loaded : Finset String)
    (current : List Item) (h : loaded = ∅) :
    daemonStartup loaded current = ⟨snapshotKeys current, true, ∅⟩ := by
  simp [daemonStartup, h]

/-- C5 witness: baseline startup on a one-item snapshot. -/
theorem baseline_seeds_watermark_witness :
    daemonStartup ∅ [⟨"a/repo1", "u1", "", "", 0, 0⟩] =
      ⟨snapshotKeys [⟨"a/repo1", "u1", "", "", 0, 0⟩], true, ∅⟩ :=
  baseline_seeds_watermark ∅ _ rfl

/-- C8: when the snapshot fetch raises, the exception is caught, nothing
is dispatched, no state is written, the watermark stays `W`, and the
daemon loop proceeds to the next tick with unchanged state instead of
terminating. -/
theorem fetch_error_skips_cycle (W : Finset String) (e : String)
    (rest : List (Except String (List Item))) :
    check_new_stars W (.error e) = ⟨W, ∅, false⟩ ∧
    runLoop (.error e :: rest) W = runLoop rest W := by
  constructor
  · rfl
  · simp [runLoop, check_new_stars]

namespace StarDaemon

/-- A ready connector whose `post_message` always raises. -/
def raisingConn : Connector :=
  ⟨"Mastodon", true, true, true, true, fun _ _ => .error "boom"⟩

/-- A ready connector whose `post_message` always succeeds. -/
def okConn : Connector :=
  ⟨"Discord", true, true, true, true, fun _ _ => .ok true⟩

/-- An enabled, initialized connector whose connection test failed. -/
def testFailedConn : Connector :=
  ⟨"Matrix", true, true, true, false, fun _ _ => .ok true⟩

end StarDaemon

/-- C2: `safe_post` never propagates an exception: a not-ready connector
yields `false` with `post_message` never consulted (the result is the
same under any replacement of `postResult`), a raising `post_message` is
converted to `false`, and the dispatcher's fan-out always produces one
recorded outcome per connector, so it proceeds past failures. -/
theorem safe_post_never_raises (c : Connector) (m : String) (md : Metadata) :
    (is_ready c = false → safe_post c m md = false) ∧
    (∀ p q : String → Metadata → Except String Bool, is_ready c = false →
      safe_post { c with postResult := p } m md =
        safe_post { c with postResult := q } m md) ∧
    (∀ e, c.postResult m md = .error e → safe_post c m md = false) ∧
    (∀ cs : List Connector, (dispatchItem cs m md).length = cs.length) := by
  refine ⟨fun h => by simp [safe_post, h], fun p q h => ?_, fun e h => ?_, ?_⟩
  · have hp : is_ready { c with postResult := p } = false := h
    have hq : is_ready { c with postResult := q } = false := h
    simp [safe_post, hp, hq]
  · simp [safe_post, h]
  · intro cs
    simp [dispatchItem]

/-- C2 witness: the theorem applied to a connector that always raises,
dispatched together with a succeeding one: the raising connector yields
a failure indicator and the fan-out still records both outcomes. -/
theorem safe_post_never_raises_witness :
    raisingConn.postResult "msg" [] = .error "boom" ∧
    safe_post raisingConn "msg" [] = false ∧
    (dispatchItem [raisingConn, okConn] "msg" []).length = 2 :=
  ⟨rfl,
   (safe_post_never_raises raisingConn "msg" []).2.2.1 "boom" rfl,
   (safe_post_never_raises raisingConn "msg" []).2.2.2 [raisingConn, okConn]⟩

/-- C3: any connector that ever receives a `post` invocation during the
process lifetime is a member of the startup dispatch set, and hence both
its initialization and its connection test succeeded; a connector
failing either check is never invoked for any item. -/
theorem failed_connector_never_dispatched
    (cands : List Connector) (items : List (String × Metadata))
    (c : Connector) (b : Bool)
    (h : (c, b) ∈ processDispatches cands items) :
    c ∈ initConnectors cands ∧ c.initWorks = true ∧ c.testResult = true := by
  have hc : c ∈ initConnectors cands := by
    induction items with
    | nil => simp [processDispatches] at h
    | cons it rest ih =>
      simp only [processDispatches, List.foldr_cons, List.mem_append,
        List.mem_map] at h
      rcases h with ⟨c', hc', heq⟩ | h
      · cases heq
        exact hc'
      · exact ih h
  refine ⟨hc, ?_⟩
  clear h
  induction cands with
  | nil => simp [initConnectors] at hc
  | cons d rest ih =>
    simp only [initConnectors, List.foldr_cons] at hc
    by_cases he : d.enabled = true
    · simp only [he, if_true] at hc
      by_cases hr : ((runInit d).2 && runTest (runInit d).1) = true
      · rw [if_pos hr] at hc
        rcases List.mem_cons.mp hc with rfl | hmem
        · by_cases hi : d.initWorks = true
          · simp [runInit, runTest, hi] at hr ⊢
            exact hr
          · simp [runInit, hi] at hr
        · exact ih hmem
      · rw [if_neg hr] at hc
        exact ih hc
    · simp only [Bool.not_eq_true] at he
      simp only [he, Bool.false_eq_true, if_false] at hc
      exact ih hc

/-- C3 witness: the theorem applied to a concrete startup with one
healthy connector and one item, discharging the membership
hypothesis. -/
theorem failed_connector_never_dispatched_witness :
    okConn ∈ initConnectors [okConn] ∧ okConn.initWorks = true ∧
      okConn.testResult = true :=
  failed_connector_never_dispatched [okConn] [("msg", [])] okConn true
    (by
      show (okConn, true) ∈
        processDispatches [okConn] [("msg", [])]
      simp [processDispatches, initConnectors, runInit, runTest, okConn,
        safe_post, is_ready])

/-- C6 counterexample: a connector that is enabled and initialized but
whose connection test failed still satisfies `is_ready`, refuting the
claimed equivalence with "enabled AND initialized AND test passed". -/
theorem is_ready_ignores_test :
    ¬ (is_ready testFailedConn = true ↔
        (testFailedConn.enabled = true ∧ testFailedConn.initialized = true ∧
          testFailedConn.testResult = true)) := by
  decide

/-- C6 (amended): `is_ready` is true iff the connector is enabled and its
initialization succeeded; the connection-test outcome is not part of the
predicate (test-failing connectors are instead kept out of the dispatch
set by the startup filter). -/
theorem is_ready_iff_enabled_and_initialized (c : Connector) :
    (is_ready c = true ↔ (c.enabled = true ∧ c.initialized = true)) ∧
    (∀ b, is_ready { c with testResult := b } = is_ready c) := by
  constructor
  · simp [is_ready]
  · intro b
    rfl

namespace StarDaemon

/-- `MatrixConnector._login_and_get_token`, username handling
(matrix_connector.py lines 117-131): `username_local = self.username`;
when it starts with `"@"`, the `@` is removed and the part before the
first `:` is kept (`username[1:].split(":")[0]`). -/
def matrixLocalUser (u : String) : String :=
  match u.data with
  | '@' :: rest => ⟨rest.takeWhile (fun c => c != ':')⟩
  | _ => u

/-- The JSON body submitted by `_login_and_get_token`
(matrix_connector.py lines 127-131): `{"type": "m.login.password",
"identifier": {"type": "m.id.user", "user": username_local},
"password": self.password}`. -/
structure LoginRequest where
  loginType : String
  idType : String
  idUser : String
  password : String
deriving DecidableEq

/-- The login request built for a configured user id and password. -/
def loginRequestFor (username password : String) : LoginRequest :=
  ⟨"m.login.password", "m.id.user", matrixLocalUser username, password⟩

/-- Characters before the first `':'` of `l ++ ':' :: r` are exactly `l`
when `l` itself is colon-free. -/
theorem takeWhile_until_colon (l r : List Char) (h : ':' ∉ l) :
    (l ++ ':' :: r).takeWhile (fun c => c != ':') = l := by
  induction l with
  | nil => simp [List.takeWhile]
  | cons a l ih =>
    have ha : a ≠ ':' := fun hₐ => h (hₐ ▸ List.mem_cons_self a l)
    have hl : ':' ∉ l := fun hm => h (List.mem_cons_of_mem a hm)
    simp only [List.cons_append, List.takeWhile_cons]
    simp [ha, ih hl]

end StarDaemon

/-- C9: for a configured Matrix user id in full MXID form
`@local:domain` (colon-free local part), the password-login exchange
submits exactly the local part as the identifier: the `@` and the
`:domain` suffix are stripped. -/
theorem matrix_login_submits_local_part
    (localPart domain : List Char) (pw : String)
    (h : ':' ∉ localPart) :
    (loginRequestFor ⟨'@' :: (localPart ++ ':' :: domain)⟩ pw).idUser =
      ⟨localPart⟩ := by
  simp only [loginRequestFor, matrixLocalUser]
  rw [takeWhile_until_colon localPart domain h]

/-- C9 witness: the id `@alice:matrix.org` logs in as `alice`. -/
theorem matrix_login_submits_local_part_witness :
    ':' ∉ "alice".data ∧
    (loginRequestFor "@alice:matrix.org" "pw").idUser = "alice" :=
  ⟨by decide,
   matrix_login_submits_local_part "alice".data "matrix.org".data "pw"
     (by decide)⟩

namespace StarDaemon

/-- The literal webhook URL prefix required by the Discord connector. -/
def discordUrlBase : String := "https://discord.com/api/webhooks/"

/-- Python's `s.startswith(p)`, as a list computation on characters. -/
def pyStartsWith (s p : String) : Bool :=
  p.data.isPrefixOf s.data

/-- State of a `DiscordConnector` (discord_connector.py lines 41-45). -/
structure DiscordConn where
  webhook_url : String
  role_id : Option String
  initialized : Bool

/-- `DiscordConnector.initialize` (discord_connector.py lines 47-64):
raises `ValueError` when the URL is falsy or lacks the literal webhook
base; the exception is caught and turned into `False`, leaving
`_initialized` unset.  Otherwise sets `_initialized = True` and returns
`True`.  Only string checks are performed: no network request. -/
def discordInit (c : DiscordConn) : DiscordConn × Bool :=
  if c.webhook_url ≠ "" ∧ pyStartsWith c.webhook_url discordUrlBase = true then
    ({ c with initialized := true }, true)
  else (c, false)

/-- `DiscordConnector.test_connection` (discord_connector.py lines
322-342): `False` when uninitialized; otherwise re-validates the same
string format and returns `True` without contacting Discord. -/
def discordTestConn (c : DiscordConn) : Bool :=
  if c.initialized = false then false
  else if c.webhook_url ≠ "" ∧ pyStartsWith c.webhook_url discordUrlBase = true
    then true
  else false

end StarDaemon

/-- C10: starting from a fresh Discord connector, `initialize` succeeds
and the resulting connector passes `test_connection` exactly when the
webhook URL starts with the literal
`https://discord.com/api/webhooks/`; the decision is a function of the
URL string alone, so a well-formed but unreachable webhook still yields
a ready connector. -/
theorem discord_ready_iff_webhook_format (url : String)
    (role : Option String) :
    ((discordInit ⟨url, role, false⟩).2 = true ∧
      discordTestConn (discordInit ⟨url, role, false⟩).1 = true) ↔
    discordUrlBase.data <+: url.data := by
  by_cases h : discordUrlBase.data <+: url.data
  · have hne : url ≠ "" := by
      intro he
      subst he
      have : discordUrlBase.data = [] := List.prefix_nil.mp h
      simp [discordUrlBase] at this
    have hsw : pyStartsWith url discordUrlBase = true := by
      simpa [pyStartsWith, List.isPrefixOf_iff_prefix] using h
    simp [discordInit, discordTestConn, hne, hsw, h]
  · have hsw : pyStartsWith url discordUrlBase ≠ true := by
      simpa [pyStartsWith, List.isPrefixOf_iff_prefix] using h
    simp [discordInit, discordTestConn, hsw, h]

namespace StarDaemon

/-- Decimal digits (reversed) grouped in threes, for Python's
thousands-separator format. -/
def chunk3 : List Char → List (List Char)
  | [] => []
  | [a] => [[a]]
  | [a, b] => [[a, b]]
  | a :: b :: c :: rest => [a, b, c] :: chunk3 rest

/-- Python's `f"{n:,}"` for a natural number: decimal digits with `,`
inserted every three digits from the right. -/
def commaFormat (n : Nat) : String :=
  ⟨(List.intercalate [','] (chunk3 (toString n).data.reverse)).reverse⟩

/-- Repository metadata dict as consumed by
`MastodonConnector.post_message` (`metadata["repo_data"]`); absent or
`None` string fields are modelled as `""`, an absent counter as `0`,
matching Python truthiness at every use site. -/
structure RepoData where
  full_name : String
  name : String
  description : String
  language : String
  stargazers_count : Nat
deriving DecidableEq

/-- The status text posted by `MastodonConnector.post_message`
(mastodon_connector.py lines 87-109 build `enhanced_message`, which line
196 passes unchanged to `status_post`): when `repo_data` is present the
message is extended with a card-info line and a description capped at
200 characters; with no `repo_data` the message is posted verbatim.  No
branch shortens the message or appends an ellipsis. -/
def mastodonStatusText (message : String) (repo : Option RepoData) :
    String :=
  match repo with
  | none => message
  | some rd =>
    let cardParts : List String :=
      (if rd.stargazers_count ≠ 0 then
        ["⭐ " ++ commaFormat rd.stargazers_count ++ " stars"] else []) ++
      (if rd.language ≠ "" then [rd.language] else [])
    let cardInfo := String.intercalate " • " cardParts
    if rd.description ≠ "" ∧ cardInfo ≠ "" then
      message ++ "\n\n" ++ cardInfo ++ "\n" ++ rd.description.take 200
    else if rd.description ≠ "" then
      message ++ "\n\n" ++ rd.description.take 200
    else if cardInfo ≠ "" then
      message ++ "\n\n" ++ cardInfo
    else message

/-- The configured ceiling `MAX_MESSAGE_LENGTH` (config.py line 255,
default `"500"`); no connector ever reads it. -/
def maxMessageLength : Nat := 500

/-- A 501-character message, one character over the default ceiling. -/
def c7LongMessage : String := ⟨List.replicate 501 'a'⟩

end StarDaemon

/-- C7: failing-input evaluation: a 501-character message (ceiling 500)
is posted by the Mastodon connector completely unmodified: the posted
text equals the input, its length 501 exceeds `maxMessageLength`, and
its final character is still `a`, so it carries no truncation marker.
The configured ceiling is dead: no connector enforces it. -/
theorem mastodon_posts_overlong_unmodified :
    mastodonStatusText c7LongMessage none = c7LongMessage ∧
    (mastodonStatusText c7LongMessage none).length = 501 ∧
    maxMessageLength < (mastodonStatusText c7LongMessage none).length ∧
    (mastodonStatusText c7LongMessage none).data.getLast? = some 'a' := by
  have h0 : mastodonStatusText c7LongMessage none = c7LongMessage := rfl
  have hlen : c7LongMessage.length = 501 := by
    show (List.replicate 501 'a').length = 501
    rw [List.length_replicate]
  have hlast : c7LongMessage.data.getLast? = some 'a' := by
    show (List.replicate 501 'a').getLast? = some 'a'
    rw [show (501 : Nat) = 500 + 1 from rfl, List.replicate_succ',
      List.getLast?_append_cons]
    rfl
  refine ⟨h0, ?_, ?_, ?_⟩ <;> rw [h0]
  · exact hlen
  · rw [hlen]
    norm_num [maxMessageLength]
  · exact hlast
